import Mathlib

/-!
Verification development for the networking-sfc extension module
(networking_sfc/extensions/sfc.py): the SFC REST resource schema,
its validators and converters, the declared exception conditions and
the abstract plugin interface, shallowly embedded in Lean.
-/

/-- Default chain correlation, from DEFAULT_CHAIN_CORRELATION. -/
def DEFAULT_CHAIN_CORRELATION : String := "mpls"

/-- Default chain symmetry, from DEFAULT_CHAIN_SYMMETRY. -/
def DEFAULT_CHAIN_SYMMETRY : Bool := false

/-- The eight load-balancing field names of SUPPORTED_LB_FIELDS. -/
def SUPPORTED_LB_FIELDS : List String :=
  ["eth_src", "eth_dst", "ip_src", "ip_dst",
   "tcp_src", "tcp_dst", "udp_src", "udp_dst"]

/-- MAX_CHAIN_ID from the source module. -/
def MAX_CHAIN_ID : Int := 65535

/-- A Python value handed to a validator expecting a list of strings: either
an actual list, or some non-list scalar (rendered by its string form). -/
inductive PyData where
  | pyList (l : List String)
  | pyScalar (s : String)
deriving DecidableEq

/-- Embedding of validate_list_of_allowed_values: a non-list is refused with
a message; a list is refused with a message when the set difference
set(data) - set(allowed_values) is non-empty (the set is modelled by
deduplicating the kept order), and accepted (no message) otherwise. -/
def validate_list_of_allowed_values (data : PyData) (allowed_values : List String) :
    Option String :=
  match data with
  | PyData.pyScalar s => some ("\x27" ++ s ++ "\x27 is not a list")
  | PyData.pyList l =>
      let illegal_values := (l.filter (fun x => decide (x ∉ allowed_values))).dedup
      if illegal_values.isEmpty then Option.none
      else some ("Illegal values in a list: " ++ String.intercalate ", " illegal_values)

/-- The validator attached to the lb_fields key of
port_pair_group_parameters in RESOURCE_ATTRIBUTE_MAP, which pairs
type:list_of_allowed_values with SUPPORTED_LB_FIELDS. -/
def lb_fields_validate (data : PyData) : Option String :=
  validate_list_of_allowed_values data SUPPORTED_LB_FIELDS

/-- Modelled from the host library (neutron_lib, not part of this repository):
the type:range validator accepts exactly the integers between the two bounds,
both inclusive; the concrete refusal message text is abbreviated here. -/
def validate_range (data : Int) (valid_values : Int × Int) : Option String :=
  if data < valid_values.1 then some "value is below the minimum of the range"
  else if data > valid_values.2 then some "value is above the maximum of the range"
  else Option.none

/-- The bounds pair (0, MAX_CHAIN_ID) attached to the chain_id attribute of
the port_chains resource in RESOURCE_ATTRIBUTE_MAP. -/
def chain_id_valid_range : Int × Int := (0, MAX_CHAIN_ID)

/-- The chain_id schema validation: type:range with chain_id_valid_range. -/
def chain_id_validate (data : Int) : Option String :=
  validate_range data chain_id_valid_range

/-- Modelled from the host library (neutron_lib, not part of this repository):
the type:values validator accepts exactly the members of the allowed list;
the concrete refusal message text is abbreviated here. -/
def validate_values {α : Type} [DecidableEq α] (data : α) (valid_values : List α) :
    Option String :=
  if data ∈ valid_values then Option.none
  else some "value is not in the list of valid values"

/-- The allowed-values list attached to the correlation key of
service_function_parameters in the port_pairs schema: exactly the one value
None (a correlation value is None or a string naming a scheme). -/
def sf_correlation_allowed_values : List (Option String) := [Option.none]

/-- The correlation sub-attribute validation of the port_pairs schema:
type:values with sf_correlation_allowed_values. -/
def sf_correlation_validate (data : Option String) : Option String :=
  validate_values data sf_correlation_allowed_values

/-- The base neutron exception class an SFC exception maps to. -/
inductive ExcBase where
  | notFound
  | inUse
  | invalidInput
deriving DecidableEq

/-- The fifteen exception conditions the module declares, in source order. -/
inductive SfcException where
  | portChainNotFound
  | portChainUnavailableChainId
  | portChainFlowClassifierInConflict
  | portChainChainIdInConflict
  | portPairGroupNotSpecified
  | invalidPortPairGroups
  | portPairPortNotFound
  | portPairIngressEgressDifferentHost
  | portPairIngressNoHost
  | portPairEgressNoHost
  | portPairIngressEgressInUse
  | portPairNotFound
  | portPairGroupNotFound
  | portPairGroupInUse
  | portPairInUse
deriving DecidableEq

/-- The neutron exception class each declared exception derives from. -/
def excBase : SfcException → ExcBase
  | SfcException.portChainNotFound => ExcBase.notFound
  | SfcException.portChainUnavailableChainId => ExcBase.invalidInput
  | SfcException.portChainFlowClassifierInConflict => ExcBase.invalidInput
  | SfcException.portChainChainIdInConflict => ExcBase.invalidInput
  | SfcException.portPairGroupNotSpecified => ExcBase.invalidInput
  | SfcException.invalidPortPairGroups => ExcBase.inUse
  | SfcException.portPairPortNotFound => ExcBase.notFound
  | SfcException.portPairIngressEgressDifferentHost => ExcBase.invalidInput
  | SfcException.portPairIngressNoHost => ExcBase.invalidInput
  | SfcException.portPairEgressNoHost => ExcBase.invalidInput
  | SfcException.portPairIngressEgressInUse => ExcBase.invalidInput
  | SfcException.portPairNotFound => ExcBase.notFound
  | SfcException.portPairGroupNotFound => ExcBase.notFound
  | SfcException.portPairGroupInUse => ExcBase.inUse
  | SfcException.portPairInUse => ExcBase.inUse

/-- The fixed message template of each declared exception, copied verbatim
(adjacent Python string literals joined, as the interpreter joins them). -/
def excMessage : SfcException → String
  | SfcException.portChainNotFound => "Port Chain %(id)s not found."
  | SfcException.portChainUnavailableChainId => "Port Chain %(id)s no available chain id."
  | SfcException.portChainFlowClassifierInConflict =>
      "Flow Classifier %(fc_id)s conflicts with Flow Classifier %(pc_fc_id)s in port chain %(pc_id)s."
  | SfcException.portChainChainIdInConflict =>
      "Chain id %(chain_id)s conflicts with Chain id in port chain %(pc_id)s."
  | SfcException.portPairGroupNotSpecified =>
      "Port Pair Group is not specified in Port Chain."
  | SfcException.invalidPortPairGroups =>
      "Port Pair Group(s) %(port_pair_groups)s in use by Port Chain %(port_chain)s."
  | SfcException.portPairPortNotFound => "Port Pair port %(id)s not found."
  | SfcException.portPairIngressEgressDifferentHost =>
      "Port Pair ingress port %(ingress)s andegress port %(egress)s not in the same host."
  | SfcException.portPairIngressNoHost =>
      "Port Pair ingress port %(ingress)s does not belong to a host."
  | SfcException.portPairEgressNoHost =>
      "Port Pair egress port %(egress)s does not belong to a host."
  | SfcException.portPairIngressEgressInUse =>
      "Port Pair with ingress port %(ingress)s and egress port %(egress)s is already used by another Port Pair %(id)s."
  | SfcException.portPairNotFound => "Port Pair %(id)s not found."
  | SfcException.portPairGroupNotFound => "Port Pair Group %(id)s not found."
  | SfcException.portPairGroupInUse => "Port Pair Group %(id)s in use."
  | SfcException.portPairInUse => "Port Pair %(id)s in use."

/-- Every declared exception, in source order. -/
def allSfcExceptions : List SfcException :=
  [SfcException.portChainNotFound,
   SfcException.portChainUnavailableChainId,
   SfcException.portChainFlowClassifierInConflict,
   SfcException.portChainChainIdInConflict,
   SfcException.portPairGroupNotSpecified,
   SfcException.invalidPortPairGroups,
   SfcException.portPairPortNotFound,
   SfcException.portPairIngressEgressDifferentHost,
   SfcException.portPairIngressNoHost,
   SfcException.portPairEgressNoHost,
   SfcException.portPairIngressEgressInUse,
   SfcException.portPairNotFound,
   SfcException.portPairGroupNotFound,
   SfcException.portPairGroupInUse,
   SfcException.portPairInUse]

/-- The three resource kinds of the extension. -/
inductive ResKind where
  | portPair
  | portPairGroup
  | portChain
deriving DecidableEq

/-- The phrase naming a resource kind inside the message templates. -/
def kindPhrase : ResKind → String
  | ResKind.portPair => "Port Pair"
  | ResKind.portPairGroup => "Port Pair Group"
  | ResKind.portChain => "Port Chain"

/-- Whether p occurs at the front of l. -/
def charsHaveStart (p l : List Char) : Bool :=
  match p, l with
  | [], _ => true
  | _ :: _, [] => false
  | a :: ps, b :: ls => a = b && charsHaveStart ps ls

/-- Whether p occurs contiguously somewhere inside l. -/
def charsContain (p l : List Char) : Bool :=
  match l with
  | [] => p.isEmpty
  | _ :: ls => charsHaveStart p l || charsContain p ls

/-- Whether the pattern occurs as a contiguous substring of the message. -/
def strMentions (msg pat : String) : Bool :=
  charsContain pat.data msg.data

/-- A Python value handed to the list converter: None, a list, or a scalar. -/
inductive PyListInput (α : Type) where
  | pyNone : PyListInput α
  | pySingle (a : α) : PyListInput α
  | pyList (l : List α) : PyListInput α
deriving DecidableEq

/-- Modelled from the host library (neutron_lib, not part of this repository):
convert_to_list maps None to the empty list, keeps a list, and wraps any
other value into a one-element list. -/
def convert_to_list {α : Type} : PyListInput α → List α
  | PyListInput.pyNone => []
  | PyListInput.pySingle a => [a]
  | PyListInput.pyList l => l

/-- Embedding of normalize_port_pair_groups: convert the input to a list and
raise PortPairGroupNotSpecified when that list is empty (the only falsy
list), else return the list. -/
def normalize_port_pair_groups (port_pair_groups : PyListInput String) :
    Except SfcException (List String) :=
  let groups := convert_to_list port_pair_groups
  if groups.isEmpty then Except.error SfcException.portPairGroupNotSpecified
  else Except.ok groups

/-- A value stored in a parameters dict: a string, a boolean, an integer or
the Python None. -/
inductive ParamVal where
  | vStr (s : String)
  | vBool (b : Bool)
  | vInt (n : Int)
  | vNone
deriving DecidableEq

/-- A Python parameters dict, as a key-value list in insertion order. -/
abbrev ParamDict := List (String × ParamVal)

/-- First-match key lookup, the meaning of indexing a Python dict. -/
def dictLookup : ParamDict → String → Option ParamVal
  | [], _ => Option.none
  | (k2, v) :: rest, k => if k2 = k then some v else dictLookup rest k

/-- Key membership, the meaning of the Python in operator on a dict. -/
def dictContains (d : ParamDict) (k : String) : Bool :=
  (dictLookup d k).isSome

/-- One defaulting step of normalize_chain_parameters: when the key is not in
the dict, assign the default under it (a fresh key lands at the end, as
Python insertion order has it); otherwise leave the dict alone. -/
def addDefault (d : ParamDict) (k : String) (v : ParamVal) : ParamDict :=
  if dictContains d k then d else d ++ [(k, v)]

/-- DEFAULT_CHAIN_PARAMETERS from the source module. -/
def DEFAULT_CHAIN_PARAMETERS : ParamDict :=
  [("correlation", ParamVal.vStr DEFAULT_CHAIN_CORRELATION),
   ("symmetric", ParamVal.vBool DEFAULT_CHAIN_SYMMETRY)]

/-- DEFAULT_SF_PARAMETERS from the source module. -/
def DEFAULT_SF_PARAMETERS : ParamDict :=
  [("correlation", ParamVal.vNone), ("weight", ParamVal.vInt 1)]

/-- DEFAULT_PPG_PARAMETERS from the source module. -/
def DEFAULT_PPG_PARAMETERS : List (String × List String) := [("lb_fields", [])]

/-- Embedding of normalize_chain_parameters: a falsy input (None or the empty
dict) resolves to DEFAULT_CHAIN_PARAMETERS; otherwise the correlation and
then the symmetric key is assigned its default exactly when absent. -/
def normalize_chain_parameters (parameters : Option ParamDict) : ParamDict :=
  match parameters with
  | Option.none => DEFAULT_CHAIN_PARAMETERS
  | some p =>
      if p.isEmpty then DEFAULT_CHAIN_PARAMETERS
      else
        addDefault
          (addDefault p "correlation" (ParamVal.vStr DEFAULT_CHAIN_CORRELATION))
          "symmetric" (ParamVal.vBool DEFAULT_CHAIN_SYMMETRY)

/-- Embedding of normalize_sf_parameters: the input when truthy, else
DEFAULT_SF_PARAMETERS. -/
def normalize_sf_parameters (parameters : Option ParamDict) : ParamDict :=
  match parameters with
  | Option.none => DEFAULT_SF_PARAMETERS
  | some p => if p.isEmpty then DEFAULT_SF_PARAMETERS else p

/-- The methods SfcPluginBase declares, in source order, each with whether it
carries the abstractmethod decorator. -/
def SfcPluginBase_methods : List (String × Bool) :=
  [("get_plugin_name", false),
   ("get_plugin_type", false),
   ("get_plugin_description", false),
   ("create_port_chain", true),
   ("update_port_chain", true),
   ("delete_port_chain", true),
   ("get_port_chains", true),
   ("get_port_chain", true),
   ("create_port_pair_group", true),
   ("update_port_pair_group", true),
   ("delete_port_pair_group", true),
   ("get_port_pair_groups", true),
   ("get_port_pair_group", true),
   ("create_port_pair", true),
   ("update_port_pair", true),
   ("delete_port_pair", true),
   ("get_port_pairs", true),
   ("get_port_pair", true)]

/-- The names of the abstract methods of SfcPluginBase. -/
def SfcPluginBase_abstract_methods : List String :=
  (SfcPluginBase_methods.filter (fun m => m.2)).map (fun m => m.1)

/-- The create, update, delete, list and get operation names for one
resource, given its singular and plural form. -/
def crudOps (singular plural : String) : List String :=
  ["create_" ++ singular, "update_" ++ singular, "delete_" ++ singular,
   "get_" ++ plural, "get_" ++ singular]

/-- Looking a key up in an appended dict finds the left binding when there is
one. -/
lemma dictLookup_append_some {d1 : ParamDict} {k : String} {v : ParamVal}
    (d2 : ParamDict) (h : dictLookup d1 k = some v) :
    dictLookup (d1 ++ d2) k = some v := by
  induction d1 with
  | nil => simp [dictLookup] at h
  | cons hd tl ih =>
      obtain ⟨k2, w⟩ := hd
      by_cases hk : k2 = k
      · simpa [dictLookup, hk] using h
      · simp only [dictLookup, hk, if_neg, List.cons_append] at h ⊢
        exact ih h

/-- Looking a key up in an appended dict falls through to the right part when
the left part lacks the key. -/
lemma dictLookup_append_none {d1 : ParamDict} {k : String}
    (d2 : ParamDict) (h : dictLookup d1 k = Option.none) :
    dictLookup (d1 ++ d2) k = dictLookup d2 k := by
  induction d1 with
  | nil => simp [dictLookup]
  | cons hd tl ih =>
      obtain ⟨k2, w⟩ := hd
      by_cases hk : k2 = k
      · simp [dictLookup, hk] at h
      · simp only [dictLookup, hk, if_neg, List.cons_append] at h ⊢
        exact ih h

/-- Defaulting a key that is present leaves the dict unchanged. -/
lemma addDefault_of_present {d : ParamDict} {k : String} {w : ParamVal}
    (v : ParamVal) (h : dictLookup d k = some w) :
    addDefault d k v = d := by
  simp [addDefault, dictContains, h]

/-- Defaulting an absent key makes it look up to the default. -/
lemma dictLookup_addDefault_of_absent {d : ParamDict} {k : String}
    (v : ParamVal) (h : dictLookup d k = Option.none) :
    dictLookup (addDefault d k v) k = some v := by
  simp only [addDefault, dictContains, h, Option.isSome_none, Bool.false_eq_true,
    if_false, if_neg]
  rw [dictLookup_append_none _ h]
  simp [dictLookup]

/-- Defaulting one key never disturbs the binding of another present key. -/
lemma dictLookup_addDefault_of_some {d : ParamDict} {k k2 : String} {w : ParamVal}
    (v : ParamVal) (h : dictLookup d k2 = some w) :
    dictLookup (addDefault d k v) k2 = some w := by
  unfold addDefault
  split
  · exact h
  · exact dictLookup_append_some _ h

/-- Defaulting a different key leaves an absent key absent. -/
lemma dictLookup_addDefault_of_absent_ne {d : ParamDict} {k k2 : String}
    (v : ParamVal) (hne : k ≠ k2) (h : dictLookup d k2 = Option.none) :
    dictLookup (addDefault d k v) k2 = Option.none := by
  unfold addDefault
  split
  · exact h
  · rw [dictLookup_append_none _ h]
    simp [dictLookup, hne]

/-- After defaulting a key, the dict contains it. -/
lemma dictContains_addDefault_self (d : ParamDict) (k : String) (v : ParamVal) :
    dictContains (addDefault d k v) k = true := by
  cases h : dictLookup d k with
  | none => simp [dictContains, dictLookup_addDefault_of_absent v h]
  | some w => simp [dictContains, addDefault_of_present v h, h]

/-- Defaulting keeps a non-empty dict non-empty. -/
lemma addDefault_ne_nil {d : ParamDict} (k : String) (v : ParamVal)
    (h : d ≠ []) : addDefault d k v ≠ [] := by
  unfold addDefault
  split
  · exact h
  · simp

/-- The emptiness test agrees with equality to the empty list. -/
lemma paramDict_isEmpty_eq_false {d : ParamDict} (h : d ≠ []) :
    d.isEmpty = false := by
  cases d with
  | nil => exact absurd rfl h
  | cons x xs => rfl

/-- An emptiness test on a non-empty list is false. -/
lemma list_isEmpty_eq_false {α : Type} {l : List α} (h : l ≠ []) :
    l.isEmpty = false := by
  cases l with
  | nil => exact absurd rfl h
  | cons x xs => rfl

/-- C1: the lb_fields validation of port_pair_group_parameters accepts a list
exactly when every element is one of the eight supported load-balancing
field names, and returns an error message otherwise. -/
theorem lb_fields_validation_allowed_iff (l : List String) :
    lb_fields_validate (PyData.pyList l) = Option.none ↔
      ∀ x ∈ l, x ∈ SUPPORTED_LB_FIELDS := by
  have hval : lb_fields_validate (PyData.pyList l) = Option.none ↔
      ((l.filter (fun x => decide (x ∉ SUPPORTED_LB_FIELDS))).dedup).isEmpty = true := by
    unfold lb_fields_validate validate_list_of_allowed_values
    dsimp only
    split
    · simp_all
    · simp_all
  rw [hval, List.isEmpty_iff, List.dedup_eq_nil, List.filter_eq_nil_iff]
  simp

/-- Witness for C1 at a concrete accepted list. -/
theorem lb_fields_validation_example :
    lb_fields_validate (PyData.pyList ["eth_src", "udp_dst"]) = Option.none :=
  (lb_fields_validation_allowed_iff ["eth_src", "udp_dst"]).mpr (by decide)

/-- C2: the chain_id schema entry carries the bounds pair (0, 65535), and its
range validation accepts an integer exactly when it lies in the closed range
from 0 to 65535. -/
theorem chain_id_range_validation :
    chain_id_valid_range = (0, 65535) ∧
      ∀ v : Int, (chain_id_validate v = Option.none ↔ 0 ≤ v ∧ v ≤ 65535) := by
  refine ⟨rfl, fun v => ?_⟩
  simp only [chain_id_validate, validate_range, chain_id_valid_range, MAX_CHAIN_ID]
  split_ifs with h1 h2
  · exact iff_of_false (by simp) (by omega)
  · exact iff_of_false (by simp) (by omega)
  · exact iff_of_true rfl (by omega)

/-- Witness for C2 at both ends of the range. -/
theorem chain_id_range_validation_example :
    chain_id_validate 0 = Option.none ∧ chain_id_validate 65535 = Option.none :=
  ⟨(chain_id_range_validation.2 0).mpr (by decide),
   (chain_id_range_validation.2 65535).mpr (by decide)⟩

/-- C3: a port_pair_groups attribute that converts to the empty list makes
the conversion step raise PortPairGroupNotSpecified, and one that converts
to a non-empty list is returned unchanged with no exception. -/
theorem port_pair_groups_required_on_creation (inp : PyListInput String) :
    (convert_to_list inp = [] →
      normalize_port_pair_groups inp =
        Except.error SfcException.portPairGroupNotSpecified) ∧
    (convert_to_list inp ≠ [] →
      normalize_port_pair_groups inp = Except.ok (convert_to_list inp)) := by
  constructor
  · intro h
    simp [normalize_port_pair_groups, h]
  · intro h
    simp [normalize_port_pair_groups, list_isEmpty_eq_false h]

/-- Witness for C3 at an omitted value and at a one-element list. -/
theorem port_pair_groups_required_example :
    normalize_port_pair_groups PyListInput.pyNone =
        Except.error SfcException.portPairGroupNotSpecified ∧
      normalize_port_pair_groups (PyListInput.pyList ["g1"]) = Except.ok ["g1"] :=
  ⟨(port_pair_groups_required_on_creation PyListInput.pyNone).1 rfl,
   (port_pair_groups_required_on_creation (PyListInput.pyList ["g1"])).2 (by decide)⟩

/-- C4: an omitted or empty chain_parameters attribute normalizes to exactly
the dict with correlation mpls and symmetric false. -/
theorem chain_parameters_default_resolution :
    normalize_chain_parameters Option.none =
        [("correlation", ParamVal.vStr "mpls"), ("symmetric", ParamVal.vBool false)] ∧
      normalize_chain_parameters (some []) =
        [("correlation", ParamVal.vStr "mpls"), ("symmetric", ParamVal.vBool false)] :=
  ⟨rfl, rfl⟩

/-- C5: an omitted or empty service_function_parameters attribute normalizes
to exactly the dict with correlation None and weight 1. -/
theorem sf_parameters_default_resolution :
    normalize_sf_parameters Option.none =
        [("correlation", ParamVal.vNone), ("weight", ParamVal.vInt 1)] ∧
      normalize_sf_parameters (some []) =
        [("correlation", ParamVal.vNone), ("weight", ParamVal.vInt 1)] :=
  ⟨rfl, rfl⟩

/-- C6 as stated fails: SfcPluginBase does not declare sixteen abstract
operations. -/
theorem sfc_plugin_base_not_sixteen :
    ¬ SfcPluginBase_abstract_methods.length = 16 := by decide

/-- C6 amended: SfcPluginBase declares exactly fifteen abstract operations,
the create, update, delete, list and get set for each of port chains, port
pair groups and port pairs. -/
theorem sfc_plugin_base_fifteen_operations :
    SfcPluginBase_abstract_methods.length = 15 ∧
      SfcPluginBase_abstract_methods =
        crudOps "port_chain" "port_chains" ++
          crudOps "port_pair_group" "port_pair_groups" ++
            crudOps "port_pair" "port_pairs" := by
  constructor
  · rfl
  · rfl

/-- C8: the conversion of port_pair_groups wraps a single non-null non-list
value into a one-element list without raising, and raises
PortPairGroupNotSpecified exactly on a null or empty-list input. -/
theorem normalize_port_pair_groups_wrap_and_raise :
    (∀ v : String,
      normalize_port_pair_groups (PyListInput.pySingle v) = Except.ok [v]) ∧
    (∀ inp : PyListInput String,
      normalize_port_pair_groups inp =
          Except.error SfcException.portPairGroupNotSpecified ↔
        (inp = PyListInput.pyNone ∨ inp = PyListInput.pyList [])) := by
  constructor
  · intro v
    rfl
  · intro inp
    cases inp with
    | pyNone => simp [normalize_port_pair_groups, convert_to_list]
    | pySingle a => simp [normalize_port_pair_groups, convert_to_list]
    | pyList l =>
        cases l with
        | nil => simp [normalize_port_pair_groups, convert_to_list]
        | cons x xs => simp [normalize_port_pair_groups, convert_to_list]

/-- Witness for C8 at a concrete scalar and the empty list. -/
theorem normalize_port_pair_groups_wrap_example :
    normalize_port_pair_groups (PyListInput.pySingle "u") = Except.ok ["u"] ∧
      normalize_port_pair_groups (PyListInput.pyList []) =
        Except.error SfcException.portPairGroupNotSpecified :=
  ⟨normalize_port_pair_groups_wrap_and_raise.1 "u",
   (normalize_port_pair_groups_wrap_and_raise.2 (PyListInput.pyList [])).mpr
     (Or.inr rfl)⟩

/-- C10: the correlation key of the port_pairs service_function_parameters
schema allows exactly the value None, so a null correlation passes and every
non-null correlation value is rejected with a message. -/
theorem port_pair_correlation_must_be_null :
    sf_correlation_allowed_values = [(Option.none : Option String)] ∧
      sf_correlation_validate Option.none = Option.none ∧
      ∀ s : String, (sf_correlation_validate (some s)).isSome = true := by
  refine ⟨rfl, rfl, fun s => ?_⟩
  unfold sf_correlation_validate validate_values sf_correlation_allowed_values
  simp

/-- Witness for C10 at the concrete correlation value mpls. -/
theorem port_pair_correlation_example :
    (sf_correlation_validate (some "mpls")).isSome = true :=
  port_pair_correlation_must_be_null.2.2 "mpls"

/-- C7: for each resource kind and each of the three neutron error classes
(not found, in use, invalid input), the module declares an exception of that
class whose fixed message template names that resource kind. -/
theorem exception_taxonomy_per_resource_kind :
    ∀ k ∈ [ResKind.portPair, ResKind.portPairGroup, ResKind.portChain],
      ∀ b ∈ [ExcBase.notFound, ExcBase.inUse, ExcBase.invalidInput],
        ∃ e ∈ allSfcExceptions,
          excBase e = b ∧ strMentions (excMessage e) (kindPhrase k) = true := by
  decide

/-- Witness for C7: an in-use exception condition naming port chains. -/
theorem exception_taxonomy_example :
    ∃ e ∈ allSfcExceptions,
      excBase e = ExcBase.inUse ∧
        strMentions (excMessage e) (kindPhrase ResKind.portChain) = true :=
  exception_taxonomy_per_resource_kind ResKind.portChain (by decide)
    ExcBase.inUse (by decide)

/-- C9: on a non-empty chain-parameters dict, normalization keeps every
correlation or symmetric binding already present, fills the default in only
for an absent key, and is idempotent. -/
theorem normalize_chain_parameters_preserves_and_idempotent
    (p : ParamDict) (hp : p ≠ []) :
    (∀ v, dictLookup p "correlation" = some v →
        dictLookup (normalize_chain_parameters (some p)) "correlation" = some v) ∧
    (dictLookup p "correlation" = Option.none →
        dictLookup (normalize_chain_parameters (some p)) "correlation" =
          some (ParamVal.vStr DEFAULT_CHAIN_CORRELATION)) ∧
    (∀ v, dictLookup p "symmetric" = some v →
        dictLookup (normalize_chain_parameters (some p)) "symmetric" = some v) ∧
    (dictLookup p "symmetric" = Option.none →
        dictLookup (normalize_chain_parameters (some p)) "symmetric" =
          some (ParamVal.vBool DEFAULT_CHAIN_SYMMETRY)) ∧
    normalize_chain_parameters (some (normalize_chain_parameters (some p))) =
      normalize_chain_parameters (some p) := by
  have hnorm : normalize_chain_parameters (some p) =
      addDefault (addDefault p "correlation" (ParamVal.vStr DEFAULT_CHAIN_CORRELATION))
        "symmetric" (ParamVal.vBool DEFAULT_CHAIN_SYMMETRY) := by
    simp [normalize_chain_parameters, list_isEmpty_eq_false hp]
  have hne : ("correlation" : String) ≠ "symmetric" := by decide
  refine ⟨?_, ?_, ?_, ?_, ?_⟩
  · intro v hv
    rw [hnorm]
    exact dictLookup_addDefault_of_some _ (dictLookup_addDefault_of_some _ hv)
  · intro hc
    rw [hnorm]
    exact dictLookup_addDefault_of_some _ (dictLookup_addDefault_of_absent _ hc)
  · intro v hv
    rw [hnorm]
    exact dictLookup_addDefault_of_some _ (dictLookup_addDefault_of_some _ hv)
  · intro hs
    rw [hnorm]
    exact dictLookup_addDefault_of_absent _
      (dictLookup_addDefault_of_absent_ne _ hne hs)
  · rw [hnorm]
    have hq1ne : addDefault p "correlation" (ParamVal.vStr DEFAULT_CHAIN_CORRELATION) ≠ [] :=
      addDefault_ne_nil _ _ hp
    have hQne : addDefault
        (addDefault p "correlation" (ParamVal.vStr DEFAULT_CHAIN_CORRELATION))
        "symmetric" (ParamVal.vBool DEFAULT_CHAIN_SYMMETRY) ≠ [] :=
      addDefault_ne_nil _ _ hq1ne
    have hq1corr : dictContains
        (addDefault p "correlation" (ParamVal.vStr DEFAULT_CHAIN_CORRELATION))
        "correlation" = true :=
      dictContains_addDefault_self p _ _
    have hQcorr : dictContains
        (addDefault
          (addDefault p "correlation" (ParamVal.vStr DEFAULT_CHAIN_CORRELATION))
          "symmetric" (ParamVal.vBool DEFAULT_CHAIN_SYMMETRY))
        "correlation" = true := by
      cases hw : dictLookup
          (addDefault p "correlation" (ParamVal.vStr DEFAULT_CHAIN_CORRELATION))
          "correlation" with
      | none => simp [dictContains, hw] at hq1corr
      | some w =>
          simp [dictContains, dictLookup_addDefault_of_some _ hw]
    have hQsym : dictContains
        (addDefault
          (addDefault p "correlation" (ParamVal.vStr DEFAULT_CHAIN_CORRELATION))
          "symmetric" (ParamVal.vBool DEFAULT_CHAIN_SYMMETRY))
        "symmetric" = true :=
      dictContains_addDefault_self _ _ _
    revert hQne hQcorr hQsym
    generalize addDefault
        (addDefault p "correlation" (ParamVal.vStr DEFAULT_CHAIN_CORRELATION))
        "symmetric" (ParamVal.vBool DEFAULT_CHAIN_SYMMETRY) = Q
    intro hQne hQcorr hQsym
    have e1 : addDefault Q "correlation" (ParamVal.vStr DEFAULT_CHAIN_CORRELATION) = Q := by
      simp [addDefault, hQcorr]
    have e2 : addDefault Q "symmetric" (ParamVal.vBool DEFAULT_CHAIN_SYMMETRY) = Q := by
      simp [addDefault, hQsym]
    simp [normalize_chain_parameters, list_isEmpty_eq_false hQne, e1, e2]

/-- Witness for C9 at a concrete one-key dict. -/
theorem normalize_chain_parameters_example :
    dictLookup (normalize_chain_parameters (some [("symmetric", ParamVal.vBool true)]))
        "correlation" = some (ParamVal.vStr DEFAULT_CHAIN_CORRELATION) ∧
      normalize_chain_parameters
          (some (normalize_chain_parameters (some [("symmetric", ParamVal.vBool true)]))) =
        normalize_chain_parameters (some [("symmetric", ParamVal.vBool true)]) :=
  ⟨(normalize_chain_parameters_preserves_and_idempotent
      [("symmetric", ParamVal.vBool true)] (by decide)).2.1 (by decide),
   (normalize_chain_parameters_preserves_and_idempotent
      [("symmetric", ParamVal.vBool true)] (by decide)).2.2.2.2⟩
